import Mathlib

/-!
Verification of the aqua-sensor-stream forwarding engine.

The repository holds two revisions of the same forwarding loop:
`src/arduino-reader/serial_reader.py` (the service) and
`src/api/rpi_client.py` (the earlier script revision).  The definitions
below are shallow embeddings of the queue, validation, delivery,
endpoint-resolution, persistence and connection-retry logic of both
files.  Network and device I/O are modelled by explicit outcome
parameters (an oracle giving, for each attempted request, the HTTP
status or a connection-level exception).
-/

/-- Substring test over character lists: the pattern occurs contiguously.
Models the Python `pat in s` operator on strings. -/
def containsSub (pat : List Char) : List Char → Bool
  | [] => pat.isEmpty
  | c :: rest => pat.isPrefixOf (c :: rest) || containsSub pat rest

/-- Python `pat in s` for strings. -/
def strContains (s pat : String) : Bool :=
  containsSub pat.data s.data

/-- serial_reader.py lines 293-296 and rpi_client.py lines 294-297: a line
is processed only when it contains both the `"pH:"` and the `"temp:"`
marker (`if "pH:" not in data or "temp:" not in data: continue`). -/
def validLine (data : String) : Bool :=
  strContains data "pH:" && strContains data "temp:"

/-- Outcome of one HTTP request: a response with a status code, or a
connection-level failure (`requests.exceptions.RequestException`). -/
inductive HttpOutcome where
  | status (code : Nat)
  | connError
deriving DecidableEq

/-- serial_reader.py lines 177-203, `send_data_to_api`: POST the reading,
return `True` exactly when the response status is 201; any other status
returns `False`, and a raised `RequestException` returns `False`. -/
def send_data_to_api (o : HttpOutcome) : Bool :=
  match o with
  | .status code => code == 201
  | .connError => false

/-- serial_reader.py lines 308-314: `successful_sends`, the indices
(from `enumerate`) of the cached readings sent successfully before the
first failure (`break`). `net` gives each reading's request outcome. -/
def successfulSendsAux (net : String → HttpOutcome) : List String → Nat → List Nat
  | [], _ => []
  | r :: rest, i =>
    if send_data_to_api (net r) then i :: successfulSendsAux net rest (i + 1)
    else []

/-- serial_reader.py lines 306-317: the cached-readings drain. After the
send loop, `local_readings = [r for i, r in enumerate(local_readings) if
i not in successful_sends]`. -/
def serial_drain (q : List String) (net : String → HttpOutcome) : List String :=
  ((q.enum.filter fun pr => !((successfulSendsAux net q 0).contains pr.1)).map Prod.snd)

/-- The POST attempts the serial_reader.py drain performs, in order: each
cached reading until (and including) the first failed one. -/
def drainAttempts (net : String → HttpOutcome) : List String → List String
  | [] => []
  | r :: rest =>
    if send_data_to_api (net r) then r :: drainAttempts net rest else [r]

/-- rpi_client.py lines 320-331: the POST attempts the cached-send loop
performs. The response status is never inspected; only a raised
exception stops the loop (`break`). -/
def rpi_drain_attempts (net : String → HttpOutcome) : List String → List String
  | [] => []
  | r :: rest =>
    match net r with
    | .connError => [r]
    | .status _ => r :: rpi_drain_attempts net rest

/-- Result of one run of the rpi_client.py cached-send block: the POSTs
made and the queue left behind. -/
structure DrainRun where
  attempts : List String
  queueAfter : List String
deriving DecidableEq

/-- rpi_client.py lines 318-332: `if local_readings:` run the cached-send
loop, then `local_readings = []` unconditionally — the queue is cleared
whether or not every cached POST succeeded. -/
def rpi_drain (q : List String) (net : String → HttpOutcome) : DrainRun :=
  if q.isEmpty then ⟨[], q⟩ else ⟨rpi_drain_attempts net q, []⟩

/-- rpi_client.py lines 300-350, the delivery step for a fresh validated
reading when a working URL is held: on a 201 response the cached drain
runs; on any other status the reading is only logged (lines 333-335); on
a `RequestException` it is appended to `local_readings` (line 339).
Returns the queue after the step. -/
def rpi_deliver (data : String) (fresh : HttpOutcome) (net : String → HttpOutcome)
    (q : List String) : List String :=
  match fresh with
  | .status code => if code == 201 then (rpi_drain q net).queueAfter else q
  | .connError => q ++ [data]

theorem send_data_to_api_iff (o : HttpOutcome) :
    send_data_to_api o = true ↔ o = .status 201 := by
  cases o with
  | status code =>
    simp only [send_data_to_api, beq_iff_eq, HttpOutcome.status.injEq]
  | connError => simp [send_data_to_api]

/-- Every index recorded by `successfulSendsAux` is at least the starting
index. -/
theorem successfulSendsAux_ge (net : String → HttpOutcome) :
    ∀ (l : List String) (i j : Nat), j ∈ successfulSendsAux net l i → i ≤ j := by
  intro l
  induction l with
  | nil => intro i j h; simp [successfulSendsAux] at h
  | cons r rest ih =>
    intro i j h
    simp only [successfulSendsAux] at h
    by_cases hs : send_data_to_api (net r) = true
    · rw [if_pos hs] at h
      rcases List.mem_cons.mp h with h1 | h2
      · omega
      · have := ih (i + 1) j h2
        omega
    · rw [if_neg hs] at h
      simp at h

/-- Every index in `enumFrom i l` is at least `i`. -/
theorem enumFrom_fst_ge : ∀ (l : List α) (i : Nat) (pr : Nat × α),
    pr ∈ l.enumFrom i → i ≤ pr.1 := by
  intro l
  induction l with
  | nil => intro i pr h; simp [List.enumFrom] at h
  | cons a rest ih =>
    intro i pr h
    simp only [List.enumFrom] at h
    rcases List.mem_cons.mp h with h1 | h2
    · subst h1; exact Nat.le_refl i
    · have := ih (i + 1) pr h2
      omega

/-- Mapping `Prod.snd` over `enumFrom` recovers the list. -/
theorem enumFrom_map_snd' : ∀ (l : List α) (i : Nat),
    (l.enumFrom i).map Prod.snd = l := by
  intro l
  induction l with
  | nil => intro i; rfl
  | cons a rest ih => intro i; simp [List.enumFrom, ih]

theorem serial_drain_general (net : String → HttpOutcome) :
    ∀ (l : List String) (i : Nat),
      (((l.enumFrom i).filter fun pr =>
          !((successfulSendsAux net l i).contains pr.1)).map Prod.snd)
        = l.dropWhile (fun r => send_data_to_api (net r)) := by
  intro l
  induction l with
  | nil => intro i; rfl
  | cons r rest ih =>
    intro i
    by_cases hs : send_data_to_api (net r) = true
    · have hsucc : successfulSendsAux net (r :: rest) i
          = i :: successfulSendsAux net rest (i + 1) := by
        simp [successfulSendsAux, hs]
      have hdrop : (r :: rest).dropWhile (fun x => send_data_to_api (net x))
          = rest.dropWhile (fun x => send_data_to_api (net x)) := by
        simp [List.dropWhile, hs]
      rw [hsucc, hdrop, show (r :: rest).enumFrom i = (i, r) :: rest.enumFrom (i + 1) from rfl,
        List.filter_cons]
      have hhead : (!((i :: successfulSendsAux net rest (i + 1)).contains (i, r).1)) = false := by
        simp
      rw [hhead]
      simp only [Bool.false_eq_true, if_false]
      have hcongr : (rest.enumFrom (i + 1)).filter
            (fun pr => !((i :: successfulSendsAux net rest (i + 1)).contains pr.1))
          = (rest.enumFrom (i + 1)).filter
            (fun pr => !((successfulSendsAux net rest (i + 1)).contains pr.1)) := by
        apply List.filter_congr
        intro pr hpr
        have hge : i + 1 ≤ pr.1 := enumFrom_fst_ge rest (i + 1) pr hpr
        have hne : (pr.1 == i) = false := by
          simp only [beq_eq_false_iff_ne, ne_eq]
          omega
        simp [hne]
        intro _
        omega
      rw [hcongr, ih (i + 1)]
    · have hsucc : successfulSendsAux net (r :: rest) i = [] := by
        simp [successfulSendsAux, hs]
      have hdrop : (r :: rest).dropWhile (fun x => send_data_to_api (net x))
          = r :: rest := by
        simp [List.dropWhile, hs]
      rw [hsucc, hdrop]
      have hall : ∀ pr ∈ (r :: rest).enumFrom i,
          (!(([] : List Nat).contains pr.1)) = true := by
        intro pr _; rfl
      rw [List.filter_eq_self.mpr hall, enumFrom_map_snd']

/-- serial_reader.py's drain leaves exactly the suffix of the queue that
starts at the first failed delivery: it stops at the first failure and
removes only successfully delivered readings. -/
theorem serial_drain_eq_dropWhile (q : List String) (net : String → HttpOutcome) :
    serial_drain q net = q.dropWhile (fun r => send_data_to_api (net r)) := by
  unfold serial_drain
  have h := serial_drain_general net q 0
  simpa [List.enum] using h

/-- State of serial_reader.py's forwarding loop that the per-cycle body
touches: the cached undelivered readings (`local_readings`) and the
currently held endpoint (`working_api_url`). -/
structure SState where
  queue : List String
  apiUrl : Option String
deriving DecidableEq

/-- Network oracle for one cycle of serial_reader.py's main loop:
`resolveTop` is the result of the `check_api_connection()` call at line
300 (made when no URL is held), `post` gives the outcome of the POST for
each payload, `resolveAfterFail` the re-resolution at line 326 after a
failed fresh send, and `resolvePeriodic` the every-5th-buffered check at
line 335. -/
structure CycleNet where
  resolveTop : Option String
  post : String → HttpOutcome
  resolveAfterFail : Option String
  resolvePeriodic : Option String

/-- serial_reader.py lines 285-335: the steady-state cycle body for one
decoded, stripped line. Returns the new state and the list of POSTed
payloads in order. Empty and invalid lines are discarded (`continue`)
before any network access; a valid line is sent when a URL is held
(drain on success, append + re-resolve on failure) and buffered
otherwise. -/
def serialCycle (data : String) (net : CycleNet) (st : SState) : SState × List String :=
  if data = "" then (st, [])
  else if validLine data = false then (st, [])
  else
    let url0 := match st.apiUrl with
      | some u => some u
      | none => net.resolveTop
    match url0 with
    | some u =>
      if send_data_to_api (net.post data) then
        (⟨serial_drain st.queue net.post, some u⟩, data :: drainAttempts net.post st.queue)
      else
        (⟨st.queue ++ [data], net.resolveAfterFail⟩, [data])
    | none =>
      let q := st.queue ++ [data]
      (⟨q, if q.length % 5 == 0 then net.resolvePeriodic else none⟩, [])

/-- Python `s.rsplit(sep, 1)[0]` for a single character separator: drop
everything from the last occurrence of the separator on; the whole
string when the separator does not occur. -/
def dropToSlash : List Char → Option (List Char)
  | [] => none
  | c :: rest => if c = '/' then some rest else dropToSlash rest

/-- serial_reader.py line 153: the probe target, the URL with its final
path segment removed via `url.rsplit('/', 1)[0]`. -/
def rsplitBase (url : String) : String :=
  match dropToSlash url.data.reverse with
  | none => url
  | some rest => ⟨rest.reverse⟩

/-- Python `s.replace(pat, rep)` for a non-empty pattern, fuel-bounded by
the length of the subject so that it is structural. -/
def replaceAllFuel (p : Char) (patTail rep : List Char) : Nat → List Char → List Char
  | 0, s => s
  | _ + 1, [] => []
  | fuel + 1, c :: rest =>
    if (p :: patTail).isPrefixOf (c :: rest) then
      rep ++ replaceAllFuel p patTail rep fuel (rest.drop patTail.length)
    else c :: replaceAllFuel p patTail rep fuel rest

/-- Python `s.replace(pat, rep)` (identity on an empty pattern, which the
sources never use). -/
def pyReplace (s pat rep : String) : String :=
  match pat.data with
  | [] => s
  | p :: pr => ⟨replaceAllFuel p pr rep.data s.data.length s.data⟩

/-- The primary endpoint, identical constant in both files. -/
def API_URL : String := "http://api:3001/api/readings"

/-- The candidate fallback endpoints, identical constant in both files. -/
def ALTERNATIVE_API_URLS : List String :=
  ["http://localhost:3001/api/readings", "http://127.0.0.1:3001/api/readings"]

/-- serial_reader.py lines 163-175: probe each alternative URL in order
with `GET` on its base; a 200 response selects it, any other status or a
raised exception moves on. `probe` returns the response status, or
`none` for a connection-level exception. -/
def probeAlternatives (probe : String → Option Nat) : List String → Option String
  | [] => none
  | u :: rest =>
    if probe (rsplitBase u) == some 200 then some u
    else probeAlternatives probe rest

/-- serial_reader.py lines 147-175, `check_api_connection`: try the given
URL first, then the alternatives, returning the first whose base answers
200; `none` when every probe fails. -/
def check_api_connection (probe : String → Option Nat) (url : String) : Option String :=
  if probe (rsplitBase url) == some 200 then some url
  else probeAlternatives probe ALTERNATIVE_API_URLS

/-- rpi_client.py lines 110 and 121: the probe target is built with
`url.replace('/readings', '')` instead of `rsplit`. -/
def rpi_base (url : String) : String :=
  pyReplace url "/readings" ""

/-- rpi_client.py's variant of the alternative-URL loop (lines 118-126). -/
def rpi_probeAlternatives (probe : String → Option Nat) : List String → Option String
  | [] => none
  | u :: rest =>
    if probe (rpi_base u) == some 200 then some u
    else rpi_probeAlternatives probe rest

/-- rpi_client.py lines 103-129, `check_api_connection`: the hard-coded
primary URL first, then the alternatives. -/
def rpi_check (probe : String → Option Nat) : Option String :=
  if probe (rpi_base API_URL) == some 200 then some API_URL
  else rpi_probeAlternatives probe ALTERNATIVE_API_URLS

/-- serial_reader.py lines 369-373: `if local_readings:` serialize the
queue to `unsent_readings.json` (rpi_client.py lines 400-404 are
identical). `none` means no write is performed at all. The file content
is modelled as the serialized list itself (`json.dump` of a list of
strings keeps order and multiplicity). -/
def persistWrite (q : List String) : Option (List String) :=
  if q.isEmpty then none else some q

/-- The durable-file state after shutdown: the freshly written content
when a write happens, otherwise whatever the file held before. -/
def fileAfterShutdown (q : List String) (prior : Option (List String)) :
    Option (List String) :=
  match persistWrite q with
  | some content => some content
  | none => prior

/-- The default device path, identical constant in both files. -/
def DEFAULT_SERIAL_PORT : String := "/dev/ttyUSB0"

/-- What a run does after device discovery at startup: terminate with an
exit status, or proceed into the main loop on a port. -/
inductive StartupOutcome where
  | exitWith (code : Nat)
  | proceed (port : String)
deriving DecidableEq

/-- serial_reader.py lines 218-226: when no port is configured or found,
`main` returns 1 (and `sys.exit(main())` makes that the process status);
otherwise the loop starts on the discovered port. -/
def serial_startup (detected : Option String) : StartupOutcome :=
  match detected with
  | none => .exitWith 1
  | some p => .proceed p

/-- serial_reader.py line 375: after the loop ends (the `running` flag
cleared by SIGINT/SIGTERM) `main` returns 0. -/
def serial_shutdown_code : Nat := 0

/-- rpi_client.py lines 219-222: when `find_arduino_port()` returns
`None`, the script logs a warning and proceeds with the default port —
it never exits at startup. -/
def rpi_startup (detected : Option String) : StartupOutcome :=
  match detected with
  | none => .proceed DEFAULT_SERIAL_PORT
  | some p => .proceed p

/-- rpi_client.py lines 387-404: a KeyboardInterrupt or any exception
falls into `finally`; `main()` returns `None`, so the process exit
status is 0 regardless of how startup went. -/
def rpi_shutdown_code : Nat := 0

/-- serial_reader.py line 239: `max_connection_attempts = 10`. -/
def max_connection_attempts : Nat := 10

/-- The loop-local connection bookkeeping of serial_reader.py's main
loop: `connection_attempts`, whether `ser` is a live handle, and the
current `serial_port`. -/
structure ConnState where
  attempts : Nat
  connected : Bool
  port : String
deriving DecidableEq

/-- serial_reader.py lines 244-267: one pass of the reconnect logic when
no handle is held. Past the threshold, re-detection runs first: if it
finds nothing, the counter is set to 0 and the pass ends still
disconnected (lines 250-253); otherwise the connect attempt proceeds on
the new port. A successful `serial.Serial(...)` resets the counter (line
262); a failed one increments it (line 264). -/
def serial_connect_step (st : ConnState) (redetect : Option String)
    (connectOk : Bool) : ConnState :=
  if st.connected then st
  else if st.attempts ≥ max_connection_attempts then
    match redetect with
    | none => ⟨0, false, st.port⟩
    | some p => if connectOk then ⟨0, true, p⟩ else ⟨st.attempts + 1, false, p⟩
  else
    if connectOk then ⟨0, true, st.port⟩ else ⟨st.attempts + 1, false, st.port⟩

/-- rpi_client.py lines 361-378: the `serial.SerialException` handler
closes the handle, sets `connection_attempts = 0` ("Reset for fresh
detection") before any reconnection, and re-runs discovery. -/
def rpi_fault_step (st : ConnState) (redetect : Option String) : ConnState :=
  ⟨0, false, match redetect with | some p => p | none => st.port⟩

/-- On a valid line with a held URL and a failed fresh POST,
serial_reader.py appends the reading to the tail of the queue, leaving
the prior entries untouched, and made exactly that one POST. -/
theorem serial_cycle_failure_appends (data : String) (net : CycleNet) (st : SState)
    (u : String) (hv : validLine data = true) (hu : st.apiUrl = some u)
    (hs : send_data_to_api (net.post data) = false) :
    (serialCycle data net st).1.queue = st.queue ++ [data] ∧
      (serialCycle data net st).2 = [data] := by
  have hd : data ≠ "" := by
    intro he
    rw [he] at hv
    exact absurd hv (by decide)
  simp [serialCycle, hd, hv, hu, hs]

/-- On a valid line with a held URL and a successful fresh POST,
serial_reader.py does not re-queue the fresh reading and drains the
cached queue up to the first failure. -/
theorem serial_cycle_success_drains (data : String) (net : CycleNet) (st : SState)
    (u : String) (hv : validLine data = true) (hu : st.apiUrl = some u)
    (hs : send_data_to_api (net.post data) = true) :
    (serialCycle data net st).1.queue
      = st.queue.dropWhile (fun r => send_data_to_api (net.post r)) := by
  have hd : data ≠ "" := by
    intro he
    rw [he] at hv
    exact absurd hv (by decide)
  simp [serialCycle, hd, hv, hu, hs, serial_drain_eq_dropWhile]

/-- C1: the claim says a drain over a buffered queue [A, B, C] in which A
is delivered and B fails must leave exactly [B, C]. Evaluating
rpi_client.py's cached-send block (lines 318-332) on that queue, with
A answering 201 and B raising a connection error: A and B are POSTed,
the loop breaks, and the queue is then cleared to [] — B and C are
removed without any successful delivery, not left as [B, C]. -/
theorem claim_C1_rpi_eval :
    (rpi_drain ["pH:7.1,temp:21.0", "pH:7.2,temp:21.1", "pH:7.3,temp:21.2"]
        (fun r => if r = "pH:7.2,temp:21.1" then .connError else .status 201)).queueAfter = [] ∧
    (rpi_drain ["pH:7.1,temp:21.0", "pH:7.2,temp:21.1", "pH:7.3,temp:21.2"]
        (fun r => if r = "pH:7.2,temp:21.1" then .connError else .status 201)).attempts
      = ["pH:7.1,temp:21.0", "pH:7.2,temp:21.1"] ∧
    (rpi_drain ["pH:7.1,temp:21.0", "pH:7.2,temp:21.1", "pH:7.3,temp:21.2"]
        (fun r => if r = "pH:7.2,temp:21.1" then .connError else .status 201)).queueAfter
      ≠ ["pH:7.2,temp:21.1", "pH:7.3,temp:21.2"] := by
  decide

/-- C2: the claim says a reading whose delivery fails is appended to the
tail of the queue. Evaluating rpi_client.py's fresh-delivery step (lines
300-339) on a reading whose POST answers 500 — a delivery failure, since
only 201 signals success — leaves the queue empty: the reading is
discarded, not appended (only a raised connection exception appends). -/
theorem claim_C2_rpi_eval :
    rpi_deliver "pH:7.2,temp:21.5" (.status 500) (fun _ => .status 201) [] = [] ∧
    send_data_to_api (.status 500) = false ∧
    rpi_deliver "pH:7.2,temp:21.5" (.status 500) (fun _ => .status 201) []
      ≠ ["pH:7.2,temp:21.5"] := by
  decide

/-- C3: a decoded line containing both the "pH:" and "temp:" markers
produces exactly one Reading — it is either appended once to the tail of
the buffer or submitted as the fresh POST of the cycle; a line missing
either marker produces zero Readings: the cycle leaves the state
untouched and performs no POST. -/
theorem claim_C3 (data : String) (net : CycleNet) (st : SState) :
    (validLine data = false → serialCycle data net st = (st, [])) ∧
    (validLine data = true →
      (serialCycle data net st).1.queue = st.queue ++ [data] ∨
      (serialCycle data net st).2.head? = some data) := by
  constructor
  · intro h
    by_cases hd : data = ""
    · simp [serialCycle, hd]
    · simp [serialCycle, hd, h]
  · intro h
    have hd : data ≠ "" := by
      intro he
      rw [he] at h
      exact absurd h (by decide)
    cases hu : st.apiUrl with
    | some u =>
      by_cases hs : send_data_to_api (net.post data) = true
      · right
        simp [serialCycle, hd, h, hu, hs]
      · left
        simp [serialCycle, hd, h, hu, hs]
    | none =>
      cases hr : net.resolveTop with
      | some u =>
        by_cases hs : send_data_to_api (net.post data) = true
        · right
          simp [serialCycle, hd, h, hu, hr, hs]
        · left
          simp [serialCycle, hd, h, hu, hr, hs]
      | none =>
        left
        simp [serialCycle, hd, h, hu, hr]

theorem claim_C3_witness :
    serialCycle "noise" ⟨some API_URL, fun _ => HttpOutcome.status 201, none, none⟩
        ⟨[], some API_URL⟩ = (⟨[], some API_URL⟩, []) ∧
    ((serialCycle "pH:7.2,temp:21.5"
        ⟨some API_URL, fun _ => HttpOutcome.status 201, none, none⟩
        ⟨[], some API_URL⟩).1.queue = ([] : List String) ++ ["pH:7.2,temp:21.5"] ∨
      (serialCycle "pH:7.2,temp:21.5"
        ⟨some API_URL, fun _ => HttpOutcome.status 201, none, none⟩
        ⟨[], some API_URL⟩).2.head? = some "pH:7.2,temp:21.5") :=
  ⟨(claim_C3 "noise" ⟨some API_URL, fun _ => HttpOutcome.status 201, none, none⟩
      ⟨[], some API_URL⟩).1 (by decide),
   (claim_C3 "pH:7.2,temp:21.5" ⟨some API_URL, fun _ => HttpOutcome.status 201, none, none⟩
      ⟨[], some API_URL⟩).2 (by decide)⟩

/-- C4: the claim says the queue never drops a Reading except on a
confirmed successful delivery. Evaluating rpi_client.py's cached-send
block on a one-element queue whose only POST raises a connection error:
the reading is attempted, the attempt fails, and the queue is still
cleared — the reading is dropped without any successful delivery. -/
theorem claim_C4_rpi_eval :
    (rpi_drain ["pH:6.9,temp:19.5"] (fun _ => .connError)).queueAfter = [] ∧
    (rpi_drain ["pH:6.9,temp:19.5"] (fun _ => .connError)).attempts = ["pH:6.9,temp:19.5"] ∧
    send_data_to_api .connError = false := by
  decide

/-- C5: the claim says a delivery attempt is Delivered iff the response
status is exactly 201. rpi_client.py's cached-send loop (lines 320-331)
never checks `cached_response.status_code`: a cached reading whose POST
answers 500 is attempted, treated as delivered, removed from the queue
and never resent — even though 500 is a delivery failure under the
201-only rule (`send_data_to_api`). -/
theorem claim_C5_rpi_eval :
    (rpi_drain ["pH:7.5,temp:22.0"] (fun _ => .status 500)).queueAfter = [] ∧
    (rpi_drain ["pH:7.5,temp:22.0"] (fun _ => .status 500)).attempts = ["pH:7.5,temp:22.0"] ∧
    send_data_to_api (.status 500) = false := by
  decide

theorem probeAlternatives_eq_find (probe : String → Option Nat) :
    ∀ alts : List String,
      probeAlternatives probe alts
        = alts.find? (fun c => probe (rsplitBase c) == some 200) := by
  intro alts
  induction alts with
  | nil => rfl
  | cons u rest ih =>
    by_cases hp : (probe (rsplitBase u) == some 200) = true
    · simp [probeAlternatives, List.find?, hp]
    · simp only [Bool.not_eq_true] at hp
      simp [probeAlternatives, List.find?, hp, ih]

/-- C6: endpoint resolution probes each candidate in list order with a
GET against the candidate's base (the URL with its final path segment
removed), returns the first candidate whose probe answers 200, and
returns none when no probe answers 200. rpi_client.py's revision (which
builds the base with `replace('/readings', '')`) selects exactly as
serial_reader.py's does on the hard-coded candidate list. -/
theorem claim_C6 (probe : String → Option Nat) (url : String) :
    check_api_connection probe url
      = (url :: ALTERNATIVE_API_URLS).find? (fun c => probe (rsplitBase c) == some 200)
    ∧ (check_api_connection probe url = none ↔
        ∀ c ∈ url :: ALTERNATIVE_API_URLS, ¬ probe (rsplitBase c) = some 200)
    ∧ rpi_check probe = check_api_connection probe API_URL := by
  have hfind : check_api_connection probe url
      = (url :: ALTERNATIVE_API_URLS).find? (fun c => probe (rsplitBase c) == some 200) := by
    by_cases hp : (probe (rsplitBase url) == some 200) = true
    · simp [check_api_connection, List.find?, hp]
    · simp only [Bool.not_eq_true] at hp
      simp [check_api_connection, List.find?, hp, probeAlternatives_eq_find]
  refine ⟨hfind, ?_, ?_⟩
  · rw [hfind, List.find?_eq_none]
    simp
  · have h1 : rpi_base API_URL = rsplitBase API_URL := by decide
    have h2 : rpi_base "http://localhost:3001/api/readings"
        = rsplitBase "http://localhost:3001/api/readings" := by decide
    have h3 : rpi_base "http://127.0.0.1:3001/api/readings"
        = rsplitBase "http://127.0.0.1:3001/api/readings" := by decide
    simp [rpi_check, check_api_connection, rpi_probeAlternatives, probeAlternatives,
      ALTERNATIVE_API_URLS, h1, h2, h3]

/-- C7 counterexample: the claim says the durable queue file is written
on every shutdown and then holds exactly the undelivered readings. At a
shutdown with an empty queue and a file left over from an earlier run,
no write happens at all and the file still holds the old run's reading —
not the (empty) undelivered list. -/
theorem claim_C7_counterexample :
    persistWrite [] = none ∧
    fileAfterShutdown [] (some ["pH:6.8,temp:20.1"]) = some ["pH:6.8,temp:20.1"] ∧
    fileAfterShutdown [] (some ["pH:6.8,temp:20.1"]) ≠ some ([] : List String) := by
  decide

/-- C7 amended: on every shutdown at which the queue is non-empty, the
durable queue file ends up holding exactly the serialized undelivered
readings, in FIFO order with no duplication, regardless of what the file
held before; with an empty queue no write occurs. -/
theorem claim_C7_amended (q : List String) (prior : Option (List String))
    (h : q ≠ []) : fileAfterShutdown q prior = some q := by
  have he : q.isEmpty = false := by
    cases q with
    | nil => exact absurd rfl h
    | cons a l => rfl
  simp [fileAfterShutdown, persistWrite, he]

theorem claim_C7_witness :
    fileAfterShutdown ["pH:7.0,temp:20.5"] (some ["pH:6.5,temp:19.0"])
      = some ["pH:7.0,temp:20.5"] :=
  claim_C7_amended ["pH:7.0,temp:20.5"] (some ["pH:6.5,temp:19.0"]) (by decide)

/-- C8 counterexample: the claim says the process exits with status 1
when no device is found at startup. In rpi_client.py a failed discovery
does not exit at all: the script proceeds with the default port, and its
`main()` returns `None`, so the eventual process status is 0, never 1. -/
theorem claim_C8_counterexample :
    rpi_startup none = .proceed DEFAULT_SERIAL_PORT ∧
    rpi_startup none ≠ .exitWith 1 ∧
    rpi_shutdown_code = 0 := by
  decide

/-- C8 amended: serial_reader.py exits with status 0 on every clean
shutdown and with status 1 when no device is found at startup;
rpi_client.py never exits with status 1 — when startup discovery fails
it proceeds with the default port /dev/ttyUSB0, and its shutdown exit
status is 0. -/
theorem claim_C8_amended :
    (∀ p, serial_startup (some p) = .proceed p) ∧
    serial_startup none = .exitWith 1 ∧
    serial_shutdown_code = 0 ∧
    rpi_startup none = .proceed DEFAULT_SERIAL_PORT ∧
    rpi_shutdown_code = 0 :=
  ⟨fun _ => rfl, rfl, rfl, rfl, rfl⟩

/-- C9 counterexample: the claim says no step other than a successful
connect resets the consecutive-failure counter. In serial_reader.py,
once the counter has reached the threshold (10) and re-discovery finds
no device, the handler sets the counter back to 0 and the loop continues
still disconnected — a reset with no successful reconnection. -/
theorem claim_C9_counterexample :
    (serial_connect_step ⟨10, false, "/dev/ttyUSB0"⟩ none false).attempts = 0 ∧
    (serial_connect_step ⟨10, false, "/dev/ttyUSB0"⟩ none false).connected = false ∧
    (10 : Nat) ≠ 0 := by
  decide

/-- C9 amended: the counter is reset to zero by a successful connection,
and additionally by the threshold path when re-discovery fails (the
reset then happens while still disconnected); rpi_client.py moreover
resets it to zero on every serial fault, before any reconnection. -/
theorem claim_C9_amended (st : ConnState) (redetect : Option String) (ok : Bool)
    (h : st.connected = false) :
    ((serial_connect_step st redetect ok).attempts = 0 ↔
      ((max_connection_attempts ≤ st.attempts ∧ redetect = none) ∨ ok = true)) ∧
    ((max_connection_attempts ≤ st.attempts ∧ redetect = none) →
      (serial_connect_step st redetect ok).connected = false) ∧
    (∀ st2 r2, (rpi_fault_step st2 r2).attempts = 0 ∧
      (rpi_fault_step st2 r2).connected = false) := by
  refine ⟨?_, ?_, fun st2 r2 => ⟨rfl, rfl⟩⟩
  · by_cases hm : max_connection_attempts ≤ st.attempts
    · cases hr : redetect with
      | none => simp [serial_connect_step, h, hm]
      | some p =>
        cases ok with
        | true => simp [serial_connect_step, h, hm]
        | false => simp [serial_connect_step, h, hm]
    · cases ok with
      | true => simp [serial_connect_step, h, hm]
      | false => simp [serial_connect_step, h, hm]
  · rintro ⟨hm, hr⟩
    subst hr
    simp [serial_connect_step, h, hm]

theorem claim_C9_witness :
    ((serial_connect_step ⟨3, false, "/dev/ttyUSB0"⟩ none true).attempts = 0 ↔
      ((max_connection_attempts ≤ 3 ∧ (none : Option String) = none) ∨ true = true)) ∧
    ((max_connection_attempts ≤ 3 ∧ (none : Option String) = none) →
      (serial_connect_step ⟨3, false, "/dev/ttyUSB0"⟩ none true).connected = false) ∧
    (∀ st2 r2, (rpi_fault_step st2 r2).attempts = 0 ∧
      (rpi_fault_step st2 r2).connected = false) :=
  claim_C9_amended ⟨3, false, "/dev/ttyUSB0"⟩ none true (by decide)

/-- C10: when the queue of undelivered readings is empty at shutdown, no
write to the durable queue file occurs, so a file left by an earlier run
keeps whatever it held. -/
theorem claim_C10 (prior : Option (List String)) :
    persistWrite [] = none ∧ fileAfterShutdown [] prior = prior :=
  ⟨rfl, rfl⟩
